import Mathlib

/-!
Shallow embedding of the authorization core of the admin-panel-dashboard
backend: the user/role/permission data model (src/models), the auth
middleware (`protect`, `requirePermission`, `requireAnyPermission`,
`requireAllPermissions`, `requireSuperAdmin`, `createAuditLog`), and the
controllers `login`, `logout`, `deleteRole`.

Times are naturals in milliseconds.  The bcrypt hash is treated as an
opaque one-way transform, so `comparePassword` compares the stored value
with the candidate directly.  A JWT is modelled as a record carrying its
payload together with the secret it was signed with; verification
succeeds exactly when the verifier's secret matches and the token has
not expired, which reflects symmetric HMAC signing without modelling the
cryptography itself.
-/

/-- A permission document; only its unique `name` (e.g. "content:read")
matters to the authorization core. -/
structure Permission where
  name : String
deriving DecidableEq, Repr

/-- A role document (src/models/Role.js), with its populated permission
list as the middleware sees it. -/
structure Role where
  rid : Nat
  name : String
  permissions : List Permission
  level : Nat
  isSystemRole : Bool
deriving DecidableEq, Repr

/-- A user document (src/models/User.js) with populated primary role and
additional roles. -/
structure User where
  uid : Nat
  uname : String
  email : String
  password : String
  role : Role
  additionalRoles : List Role
  status : String
  loginAttempts : Nat
  lockUntil : Option Nat
  lastLogin : Option Nat
deriving DecidableEq, Repr

/-- JS `Set.add` on a list kept in insertion order: append the element
unless it is already present. -/
def addUnique (acc : List String) (x : String) : List String :=
  if x ∈ acc then acc else acc ++ [x]

/-- Fold a role's permission documents into the accumulated name set
(the `forEach(perm => permissions.add(perm.name))` loops). -/
def collectNames (acc : List String) (ps : List Permission) : List String :=
  ps.foldl (fun a p => addUnique a p.name) acc

/-- Model of `userSchema.virtual('allPermissions')`: names from the primary role,
then from every additional role, deduplicated in insertion order. -/
def allPermissions (u : User) : List String :=
  u.additionalRoles.foldl (fun acc r => collectNames acc r.permissions)
    (collectNames [] u.role.permissions)

/-- Model of `userSchema.methods.hasPermission`. -/
def hasPermission (u : User) (perm : String) : Bool :=
  (allPermissions u).contains perm

/-- Model of `userSchema.methods.hasAnyPermission`. -/
def hasAnyPermission (u : User) (perms : List String) : Bool :=
  perms.any (fun p => (allPermissions u).contains p)

/-- Model of `userSchema.methods.hasAllPermissions`. -/
def hasAllPermissions (u : User) (perms : List String) : Bool :=
  perms.all (fun p => (allPermissions u).contains p)

/-- Model of `userSchema.virtual('isLocked')`: `lockUntil && lockUntil > Date.now()`. -/
def isLocked (u : User) (now : Nat) : Bool :=
  match u.lockUntil with
  | some l => now < l
  | none => false

/-- The `this.lockUntil && this.lockUntil < Date.now()` guard of
`incLoginAttempts`: a lock exists and has already expired. -/
def lockExpired (u : User) (now : Nat) : Bool :=
  match u.lockUntil with
  | some l => decide (l < now)
  | none => false

/-- Model of `userSchema.methods.incLoginAttempts` (maxAttempts = 5, lockTime = 2h). -/
def incLoginAttempts (u : User) (now : Nat) : User :=
  if lockExpired u now then
    { u with lockUntil := none, loginAttempts := 1 }
  else
    let u' :=
      if u.loginAttempts + 1 ≥ 5 ∧ ¬ (isLocked u now = true) then
        { u with lockUntil := some (now + 2 * 60 * 60 * 1000) }
      else u
    { u' with loginAttempts := u.loginAttempts + 1 }

/-- Model of `userSchema.methods.resetLoginAttempts`. -/
def resetLoginAttempts (u : User) (now : Nat) : User :=
  { u with loginAttempts := 0, lockUntil := none, lastLogin := some now }

/-- Model of `userSchema.methods.comparePassword`; bcrypt is opaque, so the model
compares the stored value directly. -/
def comparePassword (u : User) (candidate : String) : Bool :=
  u.password = candidate

/-- The decoded JWT payload plus the signing secret standing in for the
signature (`jwt.sign` in `generateAuthToken`). -/
structure Token where
  tokId : Nat
  email : String
  roleName : String
  permissions : List String
  iat : Nat
  exp : Nat
  sigSecret : String
deriving DecidableEq, Repr

/-- Model of `userSchema.methods.generateAuthToken`: embeds id, email, role name
and the issuance-time `allPermissions` snapshot. -/
def generateAuthToken (u : User) (secret : String) (expiresIn now : Nat) : Token :=
  { tokId := u.uid
    email := u.email
    roleName := u.role.name
    permissions := allPermissions u
    iat := now
    exp := now + expiresIn
    sigSecret := secret }

/-- Outcome of `jwt.verify`: decoded claims, or the two error kinds the
middleware distinguishes. -/
inductive VerifyResult where
  | ok (claims : Token)
  | expired
  | invalid
deriving DecidableEq, Repr

/-- Model of `jwt.verify(token, secret)` at time `now`: bad signature throws
`JsonWebTokenError`, an expired token `TokenExpiredError`. -/
def jwtVerify (t : Token) (secret : String) (now : Nat) : VerifyResult :=
  if t.sigSecret ≠ secret then .invalid
  else if t.exp ≤ now then .expired
  else .ok t

/-- A blacklist entry (src/models/BlacklistedToken.js); the token value
itself is the unique key. -/
structure BlacklistEntry where
  token : Token
  userId : Nat
  reason : String
  expiresAt : Nat
deriving DecidableEq, Repr

/-- An audit log document (src/models/AuditLog.js). -/
structure AuditRecord where
  userId : Option Nat
  action : String
  resource : String
  resourceId : Option String
  details : List (String × String)
  ipAddress : String
  userAgent : String
  status : String
  severity : String
deriving DecidableEq, Repr

/-- The `action` enum of `auditLogSchema`. -/
def auditActions : List String :=
  ["login", "logout", "register", "password_change", "profile_update",
   "user_create", "user_update", "user_delete", "failed_login",
   "account_locked", "password_reset", "role_change", "status_change",
   "user_list_access", "user_profile_access", "user_stats_access",
   "access_denied"]

/-- The `resource` enum of `auditLogSchema`. -/
def auditResources : List String := ["user", "auth", "system"]

/-- The `status` enum of `auditLogSchema`. -/
def auditStatuses : List String := ["success", "failure", "warning"]

/-- The `severity` enum of `auditLogSchema`. -/
def auditSeverities : List String := ["low", "medium", "high", "critical"]

/-- Mongoose validation of `auditLogSchema`: `userId`, `ipAddress` and
`userAgent` are `required: true`; `action`, `resource`, `status` and
`severity` must lie in their enums. -/
def auditValid (r : AuditRecord) : Bool :=
  r.userId.isSome
    && auditActions.contains r.action
    && auditResources.contains r.resource
    && auditStatuses.contains r.status
    && auditSeverities.contains r.severity
    && r.ipAddress ≠ ""
    && r.userAgent ≠ ""

/-- The request data the middleware reads. -/
structure Req where
  ip : String
  userAgent : String
  originalUrl : String
deriving DecidableEq, Repr

/-- The persistent state plus process-wide configuration: user and role
collections, revocation ledger, audit log collection, audit-store
availability, signing secret and token lifetime. -/
structure Sys where
  users : List User
  roles : List Role
  blacklist : List BlacklistEntry
  logs : List AuditRecord
  auditUp : Bool
  secret : String
  expiresIn : Nat
deriving DecidableEq, Repr

/-- Model of `User.findById` with the populate hook already applied. -/
def findUserById (users : List User) (i : Nat) : Option User :=
  users.find? (fun u => u.uid = i)

/-- Model of `User.findOne({email})`. -/
def findUserByEmail (users : List User) (e : String) : Option User :=
  users.find? (fun u => u.email = e)

/-- Model of `Role.findById`. -/
def findRoleById (roles : List Role) (i : Nat) : Option Role :=
  roles.find? (fun r => r.rid = i)

/-- Model of `User.countDocuments({ role: role._id })`: users whose primary role
is the given role. -/
def countUsersWithRole (users : List User) (rid : Nat) : Nat :=
  (users.filter (fun u => u.role.rid = rid)).length

/-- Model of `BlacklistedToken.findOne({ token })` as a membership test. -/
def isBlacklisted (s : Sys) (t : Token) : Bool :=
  s.blacklist.any (fun e => e.token = t)

/-- Model of `BlacklistedToken.create`: the unique index on `token` makes a
duplicate insert raise a duplicate-key error instead of writing. -/
def blacklistCreate (s : Sys) (e : BlacklistEntry) : Except String Sys :=
  if s.blacklist.any (fun x => x.token = e.token) then .error "E11000"
  else .ok { s with blacklist := s.blacklist ++ [e] }

/-- The `createAuditLog` helper (middlewares/auth.js): builds the record
with defaulted ip/userAgent and swallows every write failure, returning
control to the caller unconditionally.  A failed validation or an
unavailable audit store leaves the log collection unchanged. -/
def createAuditLog (s : Sys) (userId : Option Nat) (action resource : String)
    (details : List (String × String)) (resourceId : Option String)
    (req : Req) (status severity : String) : Sys :=
  let rec0 : AuditRecord :=
    { userId := userId
      action := action
      resource := resource
      resourceId := resourceId
      details := details
      ipAddress := if req.ip ≠ "" then req.ip else "unknown"
      userAgent := if req.userAgent ≠ "" then req.userAgent else "unknown"
      status := status
      severity := severity }
  if auditValid rec0 ∧ s.auditUp = true then { s with logs := s.logs ++ [rec0] }
  else s

/-- An HTTP-level response: status code, message (i18n keys stand for
their translated text), optional machine-readable code, optional
login-style payload. -/
structure Response where
  status : Nat
  message : String
  code : Option String := none
  payload : Option (User × Token) := none
deriving DecidableEq, Repr

/-- The externalized store operations `protect` can perform, in the
order it performs them. -/
inductive StoreOp where
  | blacklistLookup
  | signatureVerify
  | userLookup
deriving DecidableEq, Repr

instance {ε α : Type} [DecidableEq ε] [DecidableEq α] : DecidableEq (Except ε α) := by
  intro a b
  cases a <;> cases b
  case error.error x y =>
    exact if h : x = y then .isTrue (by rw [h]) else .isFalse (by intro hc; cases hc; exact h rfl)
  case error.ok x y => exact .isFalse (by intro hc; cases hc)
  case ok.error x y => exact .isFalse (by intro hc; cases hc)
  case ok.ok x y =>
    exact if h : x = y then .isTrue (by rw [h]) else .isFalse (by intro hc; cases hc; exact h rfl)

/-- Output of the `protect` middleware: either an error response or the
authenticated user and raw token attached to the request, the updated
state, and the ordered trace of store operations performed. -/
structure ProtectOut where
  result : Except Response (User × Token)
  sys : Sys
  trace : List StoreOp
deriving DecidableEq, Repr

/-- The `protect` middleware (middlewares/auth.js): token presence,
blacklist membership, `jwt.verify`, user load, active-status check,
lock check, in the source's order. -/
def protect (s : Sys) (auth : Option Token) (req : Req) (now : Nat) : ProtectOut :=
  match auth with
  | none =>
      ⟨.error { status := 401, message := "errors.unauthorized" }, s, []⟩
  | some token =>
      if isBlacklisted s token then
        ⟨.error { status := 401, message := "Token has been invalidated",
                  code := some "TOKEN_BLACKLISTED" }, s, [.blacklistLookup]⟩
      else
        match jwtVerify token s.secret now with
        | .expired =>
            ⟨.error { status := 401, message := "Token expired",
                      code := some "TOKEN_EXPIRED" }, s,
             [.blacklistLookup, .signatureVerify]⟩
        | .invalid =>
            ⟨.error { status := 401, message := "Invalid token",
                      code := some "TOKEN_INVALID" }, s,
             [.blacklistLookup, .signatureVerify]⟩
        | .ok decoded =>
            match findUserById s.users decoded.tokId with
            | none =>
                let s' := createAuditLog s (some decoded.tokId) "failed_login" "auth"
                  [("reason", "user_not_found"),
                   ("token_payload_id", toString decoded.tokId),
                   ("token_payload_permissions", toString decoded.permissions)]
                  none req "failure" "high"
                ⟨.error { status := 401, message := "errors.unauthorized" }, s',
                 [.blacklistLookup, .signatureVerify, .userLookup]⟩
            | some user =>
                if user.status ≠ "active" then
                  let s' := createAuditLog s (some user.uid) "failed_login" "auth"
                    [("reason", "account_inactive"), ("status", user.status)]
                    none req "failure" "medium"
                  ⟨.error { status := 401, message := "errors.unauthorized" }, s',
                   [.blacklistLookup, .signatureVerify, .userLookup]⟩
                else if isLocked user now then
                  let s' := createAuditLog s (some user.uid) "failed_login" "auth"
                    [("reason", "account_locked"),
                     ("lockUntil", toString user.lockUntil)]
                    none req "failure" "medium"
                  ⟨.error { status := 423,
                            message := "Account temporarily locked due to too many failed login attempts",
                            code := some "ACCOUNT_LOCKED" }, s',
                   [.blacklistLookup, .signatureVerify, .userLookup]⟩
                else
                  ⟨.ok (user, token), s,
                   [.blacklistLookup, .signatureVerify, .userLookup]⟩

/-- Output of a permission middleware: `none` means `next()` was called. -/
structure MwOut where
  result : Option Response
  sys : Sys
deriving DecidableEq, Repr

/-- Model of `requirePermission(permission)` applied to an authenticated request. -/
def requirePermission (perm : String) (s : Sys) (user : User) (req : Req) : MwOut :=
  if ¬ (hasPermission user perm = true) then
    let s' := createAuditLog s (some user.uid) "access_denied" "auth"
      [("reason", "insufficient_permissions"),
       ("required_permission", perm),
       ("user_permissions", toString (allPermissions user)),
       ("attempted_resource", req.originalUrl)]
      none req "failure" "high"
    ⟨some { status := 403, message := "errors.forbidden",
            code := some "INSUFFICIENT_PERMISSIONS" }, s'⟩
  else ⟨none, s⟩

/-- Model of `requireAnyPermission(permissions)`. -/
def requireAnyPermission (perms : List String) (s : Sys) (user : User) (req : Req) : MwOut :=
  if ¬ (hasAnyPermission user perms = true) then
    let s' := createAuditLog s (some user.uid) "access_denied" "auth"
      [("reason", "insufficient_permissions"),
       ("required_permissions", toString perms),
       ("user_permissions", toString (allPermissions user)),
       ("attempted_resource", req.originalUrl)]
      none req "failure" "high"
    ⟨some { status := 403, message := "errors.forbidden",
            code := some "INSUFFICIENT_PERMISSIONS" }, s'⟩
  else ⟨none, s⟩

/-- Model of `requireAllPermissions(permissions)`. -/
def requireAllPermissions (perms : List String) (s : Sys) (user : User) (req : Req) : MwOut :=
  if ¬ (hasAllPermissions user perms = true) then
    let s' := createAuditLog s (some user.uid) "access_denied" "auth"
      [("reason", "insufficient_permissions"),
       ("required_permissions", toString perms),
       ("user_permissions", toString (allPermissions user)),
       ("attempted_resource", req.originalUrl)]
      none req "failure" "high"
    ⟨some { status := 403, message := "errors.forbidden",
            code := some "INSUFFICIENT_PERMISSIONS" }, s'⟩
  else ⟨none, s⟩

/-- Model of `requireSuperAdmin`: decided by `req.user.role.level < 90` alone. -/
def requireSuperAdmin (s : Sys) (user : User) (req : Req) : MwOut :=
  if user.role.level < 90 then
    let s' := createAuditLog s (some user.uid) "access_denied" "auth"
      [("reason", "requires_super_admin"),
       ("user_level", toString user.role.level),
       ("attempted_resource", req.originalUrl)]
      none req "failure" "critical"
    ⟨some { status := 403, message := "Super admin access required",
            code := some "REQUIRES_SUPER_ADMIN" }, s'⟩
  else ⟨none, s⟩

/-- Result of `protect` followed by `requirePermission(perm)`: the full gate in
front of a route guarded by a single permission.  `response = none`
means the request reached the handler. -/
structure GateOut where
  response : Option Response
  sys : Sys
deriving DecidableEq, Repr

/-- Compose `protect` with `requirePermission perm`. -/
def authorizeWith (perm : String) (s : Sys) (auth : Option Token) (req : Req)
    (now : Nat) : GateOut :=
  let p := protect s auth req now
  match p.result with
  | .error r => ⟨some r, p.sys⟩
  | .ok (user, _tok) =>
      let m := requirePermission perm p.sys user req
      ⟨m.result, m.sys⟩

/-- Write back a user document (`updateOne` on the matched `_id`). -/
def updateUser (users : List User) (u' : User) : List User :=
  users.map (fun v => if v.uid = u'.uid then u' else v)

/-- Model of `authController.login`: lookup by email, lock check, active check,
password check with `incLoginAttempts` on failure, `resetLoginAttempts`
and token issuance on success, each branch emitting one audit record. -/
def login (s : Sys) (email password : String) (req : Req) (now : Nat) :
    Response × Sys :=
  match findUserByEmail s.users email with
  | none =>
      let s' := createAuditLog s none "failed_login" "auth"
        [("email", email), ("reason", "user_not_found")]
        none req "failure" "medium"
      ({ status := 401, message := "auth.invalidCredentials" }, s')
  | some user =>
      if isLocked user now then
        let s' := createAuditLog s (some user.uid) "failed_login" "auth"
          [("reason", "account_locked"), ("lockUntil", toString user.lockUntil)]
          none req "failure" "medium"
        ({ status := 423, message := "user.accountLocked" }, s')
      else if user.status ≠ "active" then
        let s' := createAuditLog s (some user.uid) "failed_login" "auth"
          [("reason", "account_inactive"), ("status", user.status)]
          none req "failure" "medium"
        ({ status := 401, message := "errors.unauthorized" }, s')
      else if ¬ (comparePassword user password = true) then
        let u' := incLoginAttempts user now
        let s1 := { s with users := updateUser s.users u' }
        let s2 := createAuditLog s1 (some user.uid) "failed_login" "auth"
          [("reason", "invalid_password"),
           ("attempts", toString (user.loginAttempts + 1))]
          none req "failure" (if user.loginAttempts ≥ 3 then "high" else "medium")
        ({ status := 401, message := "auth.invalidCredentials" }, s2)
      else
        let u' := resetLoginAttempts user now
        let s1 := { s with users := updateUser s.users u' }
        let token := generateAuthToken user s.secret s.expiresIn now
        let s2 := createAuditLog s1 (some user.uid) "login" "auth"
          [("login_method", "password"),
           ("user_agent", req.userAgent),
           ("last_login", toString user.lastLogin)]
          none req "success" "low"
        ({ status := 200, message := "auth.loginSuccess",
           payload := some (user, token) }, s2)

/-- Model of `authController.logout` (reached only behind `protect`): blacklists
the raw token; a duplicate-key error from the unique index propagates
through `next(error)` to the error handler, which answers 400. -/
def logout (s : Sys) (user : User) (token : Token) (req : Req) : Response × Sys :=
  match blacklistCreate s
      { token := token, userId := user.uid, reason := "logout",
        expiresAt := token.exp } with
  | .error _ =>
      ({ status := 400, message := "Token already exists" }, s)
  | .ok s1 =>
      let s2 := createAuditLog s1 (some user.uid) "logout" "auth"
        [("logout_method", "manual"), ("token_expires_at", toString token.exp)]
        none req "success" "low"
      ({ status := 200, message := "auth.logoutSuccess" }, s2)

/-- The logout route as deployed: `protect` then `authController.logout`. -/
def logoutRequest (s : Sys) (auth : Option Token) (req : Req) (now : Nat) :
    Response × Sys :=
  let p := protect s auth req now
  match p.result with
  | .error r => (r, p.sys)
  | .ok (user, token) => logout p.sys user token req

/-- Model of `roleController.deleteRole`: 404 when absent, 400 for system roles,
400 with the assigned-user count when still referenced, otherwise
delete plus one audit record. -/
def deleteRole (s : Sys) (roleId : Nat) (actor : User) (req : Req) :
    Response × Sys :=
  match findRoleById s.roles roleId with
  | none => ({ status := 404, message := "Role not found" }, s)
  | some role =>
      if role.isSystemRole then
        ({ status := 400, message := "System roles cannot be deleted" }, s)
      else
        let userCount := countUsersWithRole s.users role.rid
        if userCount > 0 then
          ({ status := 400,
             message := "Cannot delete role. " ++ toString userCount
               ++ " users are assigned to this role" }, s)
        else
          let s1 := { s with roles := s.roles.filter (fun r => ¬ (r.rid = roleId)) }
          let s2 := createAuditLog s1 (some actor.uid) "role_delete" "system"
            [("deleted_role", toString role.rid), ("name", role.name),
             ("permission_count", toString role.permissions.length)]
            none req "success" "high"
          ({ status := 200, message := "Role deleted successfully" }, s2)

/-! ### Helper lemmas about the permission-set computation -/

theorem mem_addUnique (acc : List String) (x y : String) :
    y ∈ addUnique acc x ↔ y ∈ acc ∨ y = x := by
  unfold addUnique
  by_cases h : x ∈ acc
  · simp only [if_pos h]
    constructor
    · exact fun hy => Or.inl hy
    · rintro (hy | rfl)
      · exact hy
      · exact h
  · simp only [if_neg h, List.mem_append, List.mem_singleton]

theorem nodup_addUnique (acc : List String) (x : String) (h : acc.Nodup) :
    (addUnique acc x).Nodup := by
  unfold addUnique
  by_cases hx : x ∈ acc
  · simpa [if_pos hx] using h
  · simpa [if_neg hx, List.nodup_append] using ⟨h, hx⟩

theorem mem_collectNames (ps : List Permission) (acc : List String) (y : String) :
    y ∈ collectNames acc ps ↔ y ∈ acc ∨ ∃ q ∈ ps, q.name = y := by
  induction ps generalizing acc with
  | nil => simp [collectNames]
  | cons p ps ih =>
      unfold collectNames at *
      rw [List.foldl_cons, ih (addUnique acc p.name), mem_addUnique]
      constructor
      · rintro ((hy | rfl) | ⟨q, hq, rfl⟩)
        · exact Or.inl hy
        · exact Or.inr ⟨p, List.mem_cons_self _ _, rfl⟩
        · exact Or.inr ⟨q, List.mem_cons_of_mem _ hq, rfl⟩
      · rintro (hy | ⟨q, hq, rfl⟩)
        · exact Or.inl (Or.inl hy)
        · rcases List.mem_cons.mp hq with rfl | hq'
          · exact Or.inl (Or.inr rfl)
          · exact Or.inr ⟨q, hq', rfl⟩

theorem nodup_collectNames (ps : List Permission) (acc : List String)
    (h : acc.Nodup) : (collectNames acc ps).Nodup := by
  induction ps generalizing acc with
  | nil => simpa [collectNames] using h
  | cons p ps ih =>
      unfold collectNames at *
      rw [List.foldl_cons]
      exact ih (addUnique acc p.name) (nodup_addUnique acc p.name h)

theorem mem_rolesFold (rs : List Role) (acc : List String) (y : String) :
    y ∈ rs.foldl (fun a r => collectNames a r.permissions) acc ↔
      y ∈ acc ∨ ∃ r ∈ rs, ∃ q ∈ r.permissions, q.name = y := by
  induction rs generalizing acc with
  | nil => simp
  | cons r rs ih =>
      rw [List.foldl_cons, ih (collectNames acc r.permissions),
        mem_collectNames]
      constructor
      · rintro ((hy | ⟨q, hq, rfl⟩) | ⟨r', hr', q, hq, rfl⟩)
        · exact Or.inl hy
        · exact Or.inr ⟨r, List.mem_cons_self _ _, q, hq, rfl⟩
        · exact Or.inr ⟨r', List.mem_cons_of_mem _ hr', q, hq, rfl⟩
      · rintro (hy | ⟨r', hr', q, hq, rfl⟩)
        · exact Or.inl (Or.inl hy)
        · rcases List.mem_cons.mp hr' with rfl | hr''
          · exact Or.inl (Or.inr ⟨q, hq, rfl⟩)
          · exact Or.inr ⟨r', hr'', q, hq, rfl⟩

theorem nodup_rolesFold (rs : List Role) (acc : List String) (h : acc.Nodup) :
    (rs.foldl (fun a r => collectNames a r.permissions) acc).Nodup := by
  induction rs generalizing acc with
  | nil => simpa using h
  | cons r rs ih =>
      rw [List.foldl_cons]
      exact ih _ (nodup_collectNames r.permissions acc h)

theorem allPermissions_nodup (u : User) : (allPermissions u).Nodup := by
  unfold allPermissions
  exact nodup_rolesFold _ _ (nodup_collectNames _ _ List.nodup_nil)

theorem mem_allPermissions (u : User) (p : String) :
    p ∈ allPermissions u ↔
      (∃ q ∈ u.role.permissions, q.name = p) ∨
        ∃ r ∈ u.additionalRoles, ∃ q ∈ r.permissions, q.name = p := by
  unfold allPermissions
  rw [mem_rolesFold, mem_collectNames]
  simp

/-! ### Concrete fixtures used by scenario conjuncts, counterexamples
and witnesses -/

/-- The seeded `user` role: level 10, permissions `{content:read}`. -/
def roleUserDemo : Role :=
  { rid := 1, name := "user", permissions := [⟨"content:read"⟩], level := 10,
    isSystemRole := true }

/-- The seeded `editor` role: level 30, permissions
`{content:create, content:read, content:update, user:read}`. -/
def roleEditorDemo : Role :=
  { rid := 2, name := "editor",
    permissions := [⟨"content:create"⟩, ⟨"content:read"⟩, ⟨"content:update"⟩,
      ⟨"user:read"⟩],
    level := 30, isSystemRole := true }

/-- A principal with primary role `user` and additional role `editor`. -/
def demoUser : User :=
  { uid := 1, uname := "Demo", email := "demo@example.com", password := "pw",
    role := roleUserDemo, additionalRoles := [roleEditorDemo],
    status := "active", loginAttempts := 0, lockUntil := none,
    lastLogin := none }

/-- A request fixture. -/
def reqDemo : Req :=
  { ip := "10.0.0.1", userAgent := "jest", originalUrl := "/api/demo" }

/-- C6: for every principal the effective permission set is the
duplicate-free union of the primary role's and every additional role's
permission names; the seeded `user`+`editor` principal gets exactly the
4-element set `{content:read, content:create, content:update, user:read}`. -/
theorem effectivePermissions_is_union :
    (∀ u : User, (allPermissions u).Nodup ∧
      ∀ p : String, p ∈ allPermissions u ↔
        ((∃ q ∈ u.role.permissions, q.name = p) ∨
          ∃ r ∈ u.additionalRoles, ∃ q ∈ r.permissions, q.name = p)) ∧
    allPermissions demoUser =
      ["content:read", "content:create", "content:update", "user:read"] ∧
    (allPermissions demoUser).length = 4 := by
  refine ⟨fun u => ⟨allPermissions_nodup u, fun p => mem_allPermissions u p⟩, ?_, ?_⟩
  · decide
  · decide

/-- The seeded `super_admin` role: level 100. -/
def roleSuperDemo : Role :=
  { rid := 3, name := "super_admin", permissions := [⟨"system:manage"⟩],
    level := 100, isSystemRole := true }

/-- A principal whose primary role has level 10 but whose additional
role has level 100. -/
def lowPrimaryHighAdditional : User :=
  { demoUser with additionalRoles := [roleSuperDemo] }

/-- A baseline system state holding the demo principal. -/
def sysDemo : Sys :=
  { users := [demoUser], roles := [roleUserDemo, roleEditorDemo],
    blacklist := [], logs := [], auditUp := true, secret := "s3cret",
    expiresIn := 604800000 }

/-- C10: `requireSuperAdmin` passes iff the primary role's level is at
least 90; replacing the additional roles changes nothing about its
output; a principal with primary level 10 and an additional level-100
role is denied with REQUIRES_SUPER_ADMIN. -/
theorem superAdmin_decided_by_primary_level :
    (∀ (s : Sys) (u : User) (req : Req),
      (requireSuperAdmin s u req).result = none ↔ 90 ≤ u.role.level) ∧
    (∀ (s : Sys) (u : User) (req : Req) (rs : List Role),
      requireSuperAdmin s { u with additionalRoles := rs } req =
        requireSuperAdmin s u req) ∧
    (requireSuperAdmin { sysDemo with users := [lowPrimaryHighAdditional] }
        lowPrimaryHighAdditional reqDemo).result =
      some { status := 403, message := "Super admin access required",
             code := some "REQUIRES_SUPER_ADMIN" } := by
  refine ⟨?_, ?_, ?_⟩
  · intro s u req
    unfold requireSuperAdmin
    by_cases h : u.role.level < 90
    · simp only [if_pos h]
      constructor
      · intro hc; cases hc
      · intro h90; omega
    · simp only [if_neg h]
      constructor
      · intro _; omega
      · intro _; trivial
  · intro s u req rs
    rfl
  · decide

/-- C9: verifying a freshly issued token with the same process secret
before expiry returns the embedded claims: the principal's identifier
and the issuance-time effective permission list. -/
theorem token_roundtrip (u : User) (secret : String) (expiresIn now now' : Nat)
    (h : now' < now + expiresIn) :
    jwtVerify (generateAuthToken u secret expiresIn now) secret now' =
      .ok (generateAuthToken u secret expiresIn now) ∧
    (generateAuthToken u secret expiresIn now).tokId = u.uid ∧
    (generateAuthToken u secret expiresIn now).permissions = allPermissions u := by
  refine ⟨?_, rfl, rfl⟩
  unfold jwtVerify generateAuthToken
  simp only [ne_eq, not_true_eq_false, if_false]
  rw [if_neg]
  omega

/-- Witness for `token_roundtrip` at the demo principal. -/
theorem token_roundtrip_witness :
    jwtVerify (generateAuthToken demoUser "s3cret" 604800000 100) "s3cret" 500 =
      .ok (generateAuthToken demoUser "s3cret" 604800000 100) ∧
    (generateAuthToken demoUser "s3cret" 604800000 100).tokId = demoUser.uid ∧
    (generateAuthToken demoUser "s3cret" 604800000 100).permissions =
      allPermissions demoUser :=
  token_roundtrip demoUser "s3cret" 604800000 100 500 (by decide)

/-- A token over the demo principal's claims whose signature does not
verify under the process secret `"s3cret"`. -/
def badSigToken : Token :=
  { tokId := 1, email := "demo@example.com", roleName := "user",
    permissions := ["content:read"], iat := 0, exp := 1000000,
    sigSecret := "wrong" }

/-- C2 counterexample: a token that fails signature verification still
reaches the blacklist lookup — the trace places the blacklist lookup
before signature verification, and the request ends in TOKEN_INVALID. -/
theorem blacklist_lookup_reached_on_bad_signature :
    (protect sysDemo (some badSigToken) reqDemo 5).trace =
      [.blacklistLookup, .signatureVerify] ∧
    StoreOp.blacklistLookup ∈ (protect sysDemo (some badSigToken) reqDemo 5).trace ∧
    (protect sysDemo (some badSigToken) reqDemo 5).result =
      .error { status := 401, message := "Invalid token",
               code := some "TOKEN_INVALID" } := by
  decide

/-- C2 amended: in `protect`, the Revocation Ledger membership check is
always the first store operation for any request bearing a token; in
particular it happens before (not after) signature verification. -/
theorem blacklist_checked_before_verification (s : Sys) (t : Token) (req : Req)
    (now : Nat) :
    ∃ rest, (protect s (some t) req now).trace = .blacklistLookup :: rest := by
  simp only [protect]
  split
  · exact ⟨[], rfl⟩
  · split
    · exact ⟨[.signatureVerify], rfl⟩
    · exact ⟨[.signatureVerify], rfl⟩
    · split
      · exact ⟨[.signatureVerify, .userLookup], rfl⟩
      · split
        · exact ⟨[.signatureVerify, .userLookup], rfl⟩
        · split
          · exact ⟨[.signatureVerify, .userLookup], rfl⟩
          · exact ⟨[.signatureVerify, .userLookup], rfl⟩

/-- The demo principal with no additional roles: effective set is the
primary role's `{content:read}` alone. -/
def demoUserSolo : User := { demoUser with additionalRoles := [] }

/-- The `user` role after an administrator re-assigned its permissions
to `{user:read}`. -/
def roleUserChanged : Role :=
  { rid := 1, name := "user", permissions := [⟨"user:read"⟩], level := 10,
    isSystemRole := true }

/-- The demo principal as stored after the role modification. -/
def demoUserChanged : User := { demoUserSolo with role := roleUserChanged }

/-- The system state after the role modification; the old token is
still unexpired and unrevoked. -/
def sysAfterRoleChange : Sys :=
  { sysDemo with users := [demoUserChanged], roles := [roleUserChanged] }

/-- The token issued to the demo principal before the role change; its
frozen snapshot is `["content:read"]`. -/
def staleToken : Token := generateAuthToken demoUserSolo "s3cret" 604800000 0

/-- C1 counterexample: after the role change, the gate grants the old
token `user:read` (a post-change permission absent from the frozen
snapshot) and denies `content:read` (the only permission in the frozen
snapshot), so the gate evaluates live permissions, not the snapshot. -/
theorem gate_ignores_frozen_snapshot :
    staleToken.permissions = ["content:read"] ∧
    (authorizeWith "user:read" sysAfterRoleChange (some staleToken) reqDemo
      100).response = none ∧
    (authorizeWith "content:read" sysAfterRoleChange (some staleToken) reqDemo
      100).response =
      some { status := 403, message := "errors.forbidden",
             code := some "INSUFFICIENT_PERMISSIONS" } := by
  decide

/-- Changing only the permission snapshot inside a token commutes with
`jwtVerify`: signature and expiry checks never read the snapshot. -/
theorem jwtVerify_permissions_irrelevant (t : Token) (ps : List String)
    (sec : String) (now : Nat) :
    jwtVerify { t with permissions := ps } sec now =
      match jwtVerify t sec now with
      | .ok c => .ok { c with permissions := ps }
      | .expired => .expired
      | .invalid => .invalid := by
  by_cases h1 : t.sigSecret = sec
  · by_cases h2 : t.exp ≤ now <;> simp [jwtVerify, h1, h2]
  · simp [jwtVerify, h1]

/-- C1 amended: with an empty revocation ledger, the gate's verdict on a
token is unchanged when the token's frozen permission snapshot is
replaced by anything else — the snapshot is never consulted — and for a
request passing `protect`, access is granted exactly when the required
permission lies in the principal's live effective permission set. -/
theorem gate_authorizes_live_permissions (s : Sys) (t : Token)
    (ps : List String) (perm : String) (req : Req) (now : Nat)
    (hbl : s.blacklist = []) :
    ((authorizeWith perm s (some { t with permissions := ps }) req now).response =
      (authorizeWith perm s (some t) req now).response) ∧
    (∀ u tk, (protect s (some t) req now).result = .ok (u, tk) →
      ((authorizeWith perm s (some t) req now).response = none ↔
        hasPermission u perm = true)) := by
  have hb : ∀ t' : Token, isBlacklisted s t' = false := by
    intro t'; simp [isBlacklisted, hbl]
  constructor
  · simp only [authorizeWith, protect, hb, Bool.false_eq_true, if_false,
      jwtVerify_permissions_irrelevant]
    cases hv : jwtVerify t s.secret now with
    | expired => rfl
    | invalid => rfl
    | ok c =>
        simp only []
        cases hu : findUserById s.users c.tokId with
        | none => simp
        | some user =>
            by_cases hs : user.status ≠ "active"
            · simp [hs]
            · by_cases hl : isLocked user now = true
              · simp [hs, hl]
              · simp [hs, hl]
  · intro u tk hok
    simp only [authorizeWith, hok]
    unfold requirePermission
    by_cases h : hasPermission u perm = true
    · simp [h]
    · simp [h]

/-- Witness for `gate_authorizes_live_permissions` at the post-change
state: replacing the stale token's snapshot does not change the verdict. -/
theorem gate_authorizes_live_permissions_witness :
    (authorizeWith "user:read" sysAfterRoleChange
        (some { staleToken with permissions := ["x"] }) reqDemo 100).response =
      (authorizeWith "user:read" sysAfterRoleChange (some staleToken) reqDemo
        100).response :=
  (gate_authorizes_live_permissions sysAfterRoleChange staleToken ["x"]
    "user:read" reqDemo 100 rfl).1

/-- A state with no user records at all. -/
def sysNoUsers : Sys := { sysDemo with users := [] }

/-- C3: the login flow's pre-authentication audit record carries a null
principal, but `auditLogSchema.userId` is `required: true`, so the
write fails validation and `createAuditLog` swallows the failure: a
failed login with an unknown email leaves the audit collection empty
even though the audit store is up, and the would-be record fails
schema validation precisely because its `userId` is null. -/
theorem null_principal_audit_record_dropped :
    sysNoUsers.auditUp = true ∧
    (login sysNoUsers "ghost@example.com" "pw" reqDemo 0).1 =
      { status := 401, message := "auth.invalidCredentials" } ∧
    (login sysNoUsers "ghost@example.com" "pw" reqDemo 0).2.logs = [] ∧
    auditValid
      { userId := none, action := "failed_login", resource := "auth",
        resourceId := none,
        details := [("email", "ghost@example.com"), ("reason", "user_not_found")],
        ipAddress := "10.0.0.1", userAgent := "jest", status := "failure",
        severity := "medium" } = false := by
  decide

/-- C7: audit-write availability is invisible to callers: `login`,
`deleteRole` and `logout` return the identical response whether the
audit store is up or down — the audit failure is swallowed inside
`createAuditLog` and never reaches the originating operation. -/
theorem audit_failure_never_propagates (s : Sys) (email pw : String)
    (req : Req) (now : Nat) (b₁ b₂ : Bool) (roleId : Nat) (actor : User)
    (tok : Token) :
    ((login { s with auditUp := b₁ } email pw req now).1 =
      (login { s with auditUp := b₂ } email pw req now).1) ∧
    ((deleteRole { s with auditUp := b₁ } roleId actor req).1 =
      (deleteRole { s with auditUp := b₂ } roleId actor req).1) ∧
    ((logout { s with auditUp := b₁ } actor tok req).1 =
      (logout { s with auditUp := b₂ } actor tok req).1) := by
  refine ⟨?_, ?_, ?_⟩
  · cases hu : findUserByEmail s.users email with
    | none => simp [login, hu]
    | some user =>
        by_cases hl : isLocked user now = true
        · simp [login, hu, hl]
        · by_cases hs : user.status ≠ "active"
          · simp [login, hu, hl, hs]
          · by_cases hp : comparePassword user pw = true
            · simp [login, hu, hl, hs, hp]
            · simp [login, hu, hl, hs, hp]
  · cases hr : findRoleById s.roles roleId with
    | none => simp [deleteRole, hr]
    | some role =>
        by_cases hsys : role.isSystemRole = true
        · simp [deleteRole, hr, hsys]
        · by_cases hc : countUsersWithRole s.users role.rid > 0
          · simp [deleteRole, hr, hsys, hc]
          · simp [deleteRole, hr, hsys, hc]
  · by_cases hd : s.blacklist.any
        (fun x => x.token = tok) = true
    · simp [logout, blacklistCreate, hd]
    · simp [logout, blacklistCreate, hd]

/-- C8 counterexample: the seeded system role `user` (rid 1) has one
assigned principal, yet `deleteRole` rejects it with the system-role
message, which does not contain the assigned-principal count. -/
theorem deleteRole_system_role_message_lacks_count :
    countUsersWithRole sysDemo.users 1 = 1 ∧
    (deleteRole sysDemo 1 demoUser reqDemo).1 =
      { status := 400, message := "System roles cannot be deleted" } ∧
    ¬ ∃ pre post : String,
        (deleteRole sysDemo 1 demoUser reqDemo).1.message =
          pre ++ toString (countUsersWithRole sysDemo.users 1) ++ post := by
  refine ⟨by decide, by decide, ?_⟩
  rintro ⟨pre, post, h⟩
  have e1 : (deleteRole sysDemo 1 demoUser reqDemo).1.message =
      "System roles cannot be deleted" := by decide
  have e2 : toString (countUsersWithRole sysDemo.users 1) = "1" := by decide
  rw [e1, e2] at h
  have hd := congrArg String.data h
  rw [String.data_append, String.data_append] at hd
  have hmem : '1' ∈ "System roles cannot be deleted".data := by
    rw [hd]
    simp
  revert hmem
  decide

/-- C8 amended: for every non-system role with at least one principal
whose primary role is that role, `deleteRole` answers 400 with the
assigned-principal count embedded in the message and leaves the whole
state unchanged.  (A system role in the same situation is rejected
earlier, with the count-free system-role message.) -/
theorem deleteRole_in_use_rejected_with_count (s : Sys) (rid : Nat)
    (role : Role) (actor : User) (req : Req)
    (hr : findRoleById s.roles rid = some role)
    (hsys : role.isSystemRole = false)
    (hc : 0 < countUsersWithRole s.users role.rid) :
    (deleteRole s rid actor req).1.status = 400 ∧
    (deleteRole s rid actor req).1.message =
      "Cannot delete role. " ++ toString (countUsersWithRole s.users role.rid)
        ++ " users are assigned to this role" ∧
    (∃ pre post : String,
      (deleteRole s rid actor req).1.message =
        pre ++ toString (countUsersWithRole s.users role.rid) ++ post) ∧
    (deleteRole s rid actor req).2 = s := by
  have hbody : deleteRole s rid actor req =
      ({ status := 400,
         message := "Cannot delete role. "
           ++ toString (countUsersWithRole s.users role.rid)
           ++ " users are assigned to this role" }, s) := by
    unfold deleteRole
    rw [hr]
    simp only [hsys, Bool.false_eq_true, if_false]
    rw [if_pos hc]
  rw [hbody]
  exact ⟨rfl, rfl, ⟨"Cannot delete role. ", " users are assigned to this role", rfl⟩, rfl⟩

/-- A non-system role referenced by one principal, for the C8 witness. -/
def roleCustomDemo : Role :=
  { rid := 7, name := "custom", permissions := [⟨"content:read"⟩], level := 20,
    isSystemRole := false }

/-- A state where `custom` is a principal's primary role. -/
def sysWithCustomRole : Sys :=
  { sysDemo with
    roles := [roleUserDemo, roleCustomDemo],
    users := [{ demoUser with role := roleCustomDemo }] }

/-- Witness for `deleteRole_in_use_rejected_with_count` on the `custom`
role. -/
theorem deleteRole_in_use_rejected_with_count_witness :
    (deleteRole sysWithCustomRole 7 demoUser reqDemo).1.status = 400 ∧
    (deleteRole sysWithCustomRole 7 demoUser reqDemo).1.message =
      "Cannot delete role. "
        ++ toString (countUsersWithRole sysWithCustomRole.users 7)
        ++ " users are assigned to this role" ∧
    (∃ pre post : String,
      (deleteRole sysWithCustomRole 7 demoUser reqDemo).1.message =
        pre ++ toString (countUsersWithRole sysWithCustomRole.users 7) ++ post) ∧
    (deleteRole sysWithCustomRole 7 demoUser reqDemo).2 = sysWithCustomRole :=
  deleteRole_in_use_rejected_with_count sysWithCustomRole 7 roleCustomDemo
    demoUser reqDemo (by decide) (by decide) (by decide)

/-- A valid token for the demo principal under the demo state's secret. -/
def validToken : Token := generateAuthToken demoUser "s3cret" 604800000 0

/-- Lemma that `createAuditLog` only ever touches the audit log collection. -/
theorem createAuditLog_preserves_blacklist (s : Sys) (userId : Option Nat)
    (action resource : String) (details : List (String × String))
    (resourceId : Option String) (req : Req) (status severity : String) :
    (createAuditLog s userId action resource details resourceId req status
      severity).blacklist = s.blacklist := by
  unfold createAuditLog
  dsimp only
  split <;> split <;> split <;> rfl

/-- C4 counterexample: running the logout route twice with the same
token does not succeed idempotently — the first call answers 200 and
records the revocation, the second is rejected 401 TOKEN_BLACKLISTED by
the gate (before any insert), leaving the ledger exactly as after the
first call. -/
theorem second_logout_is_rejected_not_idempotent :
    (logoutRequest sysDemo (some validToken) reqDemo 10).1.status = 200 ∧
    (logoutRequest (logoutRequest sysDemo (some validToken) reqDemo 10).2
        (some validToken) reqDemo 20).1 =
      { status := 401, message := "Token has been invalidated",
        code := some "TOKEN_BLACKLISTED" } ∧
    (logoutRequest (logoutRequest sysDemo (some validToken) reqDemo 10).2
        (some validToken) reqDemo 20).2 =
      (logoutRequest sysDemo (some validToken) reqDemo 10).2 := by
  decide

/-- C4 amended: after a first logout that passes the gate, a second
logout with the same token is rejected by `protect` with 401
TOKEN_BLACKLISTED before any insert is attempted, and the whole state —
the Revocation Ledger in particular — is unchanged by the second call;
the duplicate insert path itself surfaces as an error (`blacklistCreate`
rejects a duplicate token) rather than being absorbed. -/
theorem second_revocation_rejected (s : Sys) (u : User) (tok : Token)
    (req req' : Req) (now now' : Nat)
    (hnb : isBlacklisted s tok = false)
    (hv : jwtVerify tok s.secret now = .ok tok)
    (hu : findUserById s.users tok.tokId = some u)
    (hs : u.status = "active")
    (hl : isLocked u now = false) :
    (logoutRequest s (some tok) req now).1.status = 200 ∧
    isBlacklisted (logoutRequest s (some tok) req now).2 tok = true ∧
    (logoutRequest (logoutRequest s (some tok) req now).2 (some tok) req'
        now').1 =
      { status := 401, message := "Token has been invalidated",
        code := some "TOKEN_BLACKLISTED" } ∧
    (logoutRequest (logoutRequest s (some tok) req now).2 (some tok) req'
        now').2 = (logoutRequest s (some tok) req now).2 ∧
    (∀ e : BlacklistEntry, e.token = tok →
      blacklistCreate (logoutRequest s (some tok) req now).2 e =
        .error "E11000") := by
  have hstep : protect s (some tok) req now =
      ⟨.ok (u, tok), s, [.blacklistLookup, .signatureVerify, .userLookup]⟩ := by
    unfold protect
    simp only [hnb, Bool.false_eq_true, if_false, hv, hu, hs, ne_eq,
      not_true_eq_false, if_false, hl, ite_false]
  have hfirst : logoutRequest s (some tok) req now =
      logout s u tok req := by
    unfold logoutRequest
    rw [hstep]
  have hcreate : blacklistCreate s
      { token := tok, userId := u.uid, reason := "logout",
        expiresAt := tok.exp } =
      .ok { s with blacklist := s.blacklist ++
        [{ token := tok, userId := u.uid, reason := "logout",
           expiresAt := tok.exp }] } := by
    unfold blacklistCreate
    rw [if_neg]
    intro hc
    rw [show s.blacklist.any (fun x => x.token = tok) = isBlacklisted s tok
      from rfl, hnb] at hc
    exact absurd hc (by simp)
  have hlogout : logout s u tok req =
      ({ status := 200, message := "auth.logoutSuccess" },
        createAuditLog { s with blacklist := s.blacklist ++
          [{ token := tok, userId := u.uid, reason := "logout",
             expiresAt := tok.exp }] }
          (some u.uid) "logout" "auth"
          [("logout_method", "manual"), ("token_expires_at", toString tok.exp)]
          none req "success" "low") := by
    unfold logout
    rw [hcreate]
  have hbl2 : (logoutRequest s (some tok) req now).2.blacklist =
      s.blacklist ++
        [{ token := tok, userId := u.uid, reason := "logout",
           expiresAt := tok.exp }] := by
    rw [hfirst, hlogout]
    exact createAuditLog_preserves_blacklist _ _ _ _ _ _ _ _ _
  have hbl3 : isBlacklisted (logoutRequest s (some tok) req now).2 tok = true := by
    unfold isBlacklisted
    rw [hbl2]
    simp
  refine ⟨?_, hbl3, ?_, ?_, ?_⟩
  · rw [hfirst, hlogout]
  · generalize hS1 : (logoutRequest s (some tok) req now).2 = S1 at hbl3 ⊢
    unfold logoutRequest protect
    simp [hbl3]
  · generalize hS1 : (logoutRequest s (some tok) req now).2 = S1 at hbl3 ⊢
    unfold logoutRequest protect
    simp [hbl3]
  · intro e he
    have hany : (logoutRequest s (some tok) req now).2.blacklist.any
        (fun x => x.token = e.token) = true := by
      rw [hbl2, he]
      simp
    unfold blacklistCreate
    rw [if_pos hany]

/-- Witness for `second_revocation_rejected` on the demo state. -/
theorem second_revocation_rejected_witness :
    (logoutRequest sysDemo (some validToken) reqDemo 10).1.status = 200 ∧
    isBlacklisted (logoutRequest sysDemo (some validToken) reqDemo 10).2
      validToken = true :=
  ⟨(second_revocation_rejected sysDemo demoUser validToken reqDemo reqDemo 10 20
      (by decide) (by decide) (by decide) (by decide) (by decide)).1,
   (second_revocation_rejected sysDemo demoUser validToken reqDemo reqDemo 10 20
      (by decide) (by decide) (by decide) (by decide) (by decide)).2.1⟩

/-- One failed (or successful) login attempt viewed as a state update. -/
def failLogin (s : Sys) (email pw : String) (req : Req) (now : Nat) : Sys :=
  (login s email pw req now).2

/-- Lemma that `createAuditLog` leaves the user collection untouched. -/
theorem createAuditLog_preserves_users (s : Sys) (userId : Option Nat)
    (action resource : String) (details : List (String × String))
    (resourceId : Option String) (req : Req) (status severity : String) :
    (createAuditLog s userId action resource details resourceId req status
      severity).users = s.users := by
  unfold createAuditLog
  dsimp only
  split <;> split <;> split <;> rfl

/-- One failed password check below the threshold: the stored user's
counter is incremented by one and nothing else about the user changes. -/
theorem failedLogin_step (s : Sys) (u : User) (email wrongPw : String)
    (req : Req) (now : Nat)
    (husers : s.users = [u]) (hemail : u.email = email)
    (hl : u.lockUntil = none) (hs : u.status = "active")
    (hp : comparePassword u wrongPw = false)
    (hcap : u.loginAttempts + 1 < 5) :
    (failLogin s email wrongPw req now).users =
      [{ u with loginAttempts := u.loginAttempts + 1 }] := by
  have hfind : findUserByEmail s.users email = some u := by
    rw [husers]
    simp [findUserByEmail, hemail]
  have hlk : isLocked u now = false := by simp [isLocked, hl]
  have hinc : incLoginAttempts u now =
      { u with loginAttempts := u.loginAttempts + 1 } := by
    unfold incLoginAttempts
    rw [if_neg (by simp [lockExpired, hl])]
    rw [if_neg (by rintro ⟨h5, _⟩; omega)]
  unfold failLogin login
  rw [hfind]
  dsimp only
  rw [if_neg (by simp [hlk])]
  rw [if_neg (by simp [hs])]
  rw [if_pos (by simp [hp])]
  dsimp only
  rw [createAuditLog_preserves_users]
  dsimp only
  rw [hinc, husers]
  simp [updateUser]

/-- The fifth failed password check: the counter reaches 5 and the lock
expiry is set two hours into the future. -/
theorem failedLogin_lock_step (s : Sys) (u : User) (email wrongPw : String)
    (req : Req) (now : Nat)
    (husers : s.users = [u]) (hemail : u.email = email)
    (hl : u.lockUntil = none) (hs : u.status = "active")
    (hp : comparePassword u wrongPw = false)
    (hfour : u.loginAttempts = 4) :
    (failLogin s email wrongPw req now).users =
      [{ u with lockUntil := some (now + 2 * 60 * 60 * 1000), loginAttempts := 5 }] := by
  have hfind : findUserByEmail s.users email = some u := by
    rw [husers]
    simp [findUserByEmail, hemail]
  have hlk : isLocked u now = false := by simp [isLocked, hl]
  have hinc : incLoginAttempts u now =
      { u with lockUntil := some (now + 2 * 60 * 60 * 1000), loginAttempts := 5 } := by
    unfold incLoginAttempts
    rw [if_neg (by simp [lockExpired, hl])]
    rw [if_pos (by refine ⟨by omega, by simp [hlk]⟩)]
    rw [hfour]
  unfold failLogin login
  rw [hfind]
  dsimp only
  rw [if_neg (by simp [hlk])]
  rw [if_neg (by simp [hs])]
  rw [if_pos (by simp [hp])]
  dsimp only
  rw [createAuditLog_preserves_users]
  dsimp only
  rw [hinc, husers]
  simp [updateUser]

/-- A login attempt against a currently locked account is answered 423
before the password is ever compared. -/
theorem login_locked_rejected (s : Sys) (u : User) (email pw : String)
    (req : Req) (now' : Nat)
    (husers : s.users = [u]) (hemail : u.email = email)
    (hlock : isLocked u now' = true) :
    (login s email pw req now').1 =
      { status := 423, message := "user.accountLocked" } := by
  have hfind : findUserByEmail s.users email = some u := by
    rw [husers]
    simp [findUserByEmail, hemail]
  unfold login
  rw [hfind]
  simp [hlock]

/-- C5: starting Unlocked with a zero failure counter, five consecutive
failed password checks leave the principal Locked with `lockUntil` two
hours after the fifth check, and any sixth attempt during the lock
window — whatever password it supplies — is answered with the
423 locked status. -/
theorem account_locks_after_five_failures (s : Sys) (u : User)
    (wrongPw : String) (req : Req) (now : Nat)
    (husers : s.users = [u]) (h0 : u.loginAttempts = 0)
    (hl : u.lockUntil = none) (hs : u.status = "active")
    (hp : comparePassword u wrongPw = false) :
    ∃ u5 : User,
      (failLogin (failLogin (failLogin (failLogin (failLogin s u.email wrongPw
          req now) u.email wrongPw req now) u.email wrongPw req now)
          u.email wrongPw req now) u.email wrongPw req now).users = [u5] ∧
      u5.lockUntil = some (now + 2 * 60 * 60 * 1000) ∧
      u5.loginAttempts = 5 ∧
      ∀ pw : String, ∀ now' : Nat, now' < now + 2 * 60 * 60 * 1000 →
        (login (failLogin (failLogin (failLogin (failLogin (failLogin s
            u.email wrongPw req now) u.email wrongPw req now)
            u.email wrongPw req now) u.email wrongPw req now)
            u.email wrongPw req now) u.email pw req now').1 =
          { status := 423, message := "user.accountLocked" } := by
  have e1 := failedLogin_step s u u.email wrongPw req now husers rfl hl hs hp
    (by omega)
  have e2 := failedLogin_step _ _ u.email wrongPw req now e1 rfl hl hs hp
    (by dsimp only; omega)
  have e3 := failedLogin_step _ _ u.email wrongPw req now e2 rfl hl hs hp
    (by dsimp only; omega)
  have e4 := failedLogin_step _ _ u.email wrongPw req now e3 rfl hl hs hp
    (by dsimp only; omega)
  have e5 := failedLogin_lock_step _ _ u.email wrongPw req now e4 rfl hl hs hp
    (by dsimp only; omega)
  refine ⟨_, e5, rfl, rfl, ?_⟩
  intro pw now' hlt
  refine login_locked_rejected _ _ u.email pw req now' e5 rfl ?_
  simp only [isLocked]
  simpa using hlt

/-- Witness for `account_locks_after_five_failures`: after five wrong
passwords the demo principal's sixth attempt with the CORRECT password
is still answered 423. -/
theorem account_locks_after_five_failures_witness :
    (login (failLogin (failLogin (failLogin (failLogin (failLogin sysDemo
        demoUser.email "bad" reqDemo 0) demoUser.email "bad" reqDemo 0)
        demoUser.email "bad" reqDemo 0) demoUser.email "bad" reqDemo 0)
        demoUser.email "bad" reqDemo 0) demoUser.email "pw" reqDemo 1000).1 =
      { status := 423, message := "user.accountLocked" } := by
  obtain ⟨u5, hu5, hL, hA, hrej⟩ := account_locks_after_five_failures sysDemo
    demoUser "bad" reqDemo 0 rfl rfl rfl rfl (by decide)
  exact hrej "pw" 1000 (by decide)
